import Mathlib

/-!
Shallow embedding of the Aspia host-side desktop session controller
(`source/host/desktop_session_manager.cc`) and of the Windows desktop
environment toggler (`source/desktop/win/desktop_environment.cc`),
together with theorems settling the specification claims.

The controller is single-threaded; each method is embedded as a pure
function from a configuration to a new configuration paired with the
list of observable events the method emits, in source order.
-/

namespace Aspia

/-- Controller states of `DesktopSessionManager::State` as used in
`desktop_session_manager.cc`. -/
inductive State where
  | STOPPED
  | STARTING
  | ATTACHED
  | DETACHED
  | STOPPING
deriving DecidableEq

/-- Session variants: `DesktopSessionFake` and `DesktopSessionIpc` (the
channel-backed session, tagged with the channel identifier of the
connection it wraps). -/
inductive Session where
  | fake
  | ipc (ch : Nat)
deriving DecidableEq

/-- An IPC server object (`base::IpcServer`): the channel identifier it was
started on, and whether `start` succeeded so that it is listening. -/
structure ServerObj where
  id : Nat
  started : Bool
deriving DecidableEq

/-- Owned heap objects whose destruction the embedding tracks. -/
inductive Obj where
  | sessionObj (s : Session)
  | serverObj (id : Nat)
deriving DecidableEq

/-- Observable events emitted while executing controller methods, listed in
source order: assignments to `state_`, arming and stopping of
`session_attach_timer_`, `IpcServer` lifecycle, process spawning, inline
(synchronous) destruction versus `TaskRunner::deleteSoon` deferred
destruction of owned objects, proxy operations, fake-session creation, the
body of `onErrorOccurred` past its guard, and rejection of an unknown
peer. -/
inductive Ev where
  | stateSet (s : State)
  | timerStart
  | timerStop
  | serverStartOk (id : Nat)
  | serverStartFail (id : Nat)
  | serverStop (id : Nat)
  | spawn (sid : Nat) (ch : Nat)
  | spawnFail (sid : Nat) (ch : Nat)
  | destroyInline (o : Obj)
  | deleteSoon (o : Obj)
  | proxyStopDettach
  | proxyAttachStart (s : Session)
  | fakeCreated
  | errorPath
  | reject (peer : Nat)
deriving DecidableEq

/-- Configuration of a `DesktopSessionManager`: `state_`, the owned
`session_`, the session currently bound inside `session_proxy_` (the proxy
holds a raw pointer to the current session, or none), whether the
single-shot `session_attach_timer_` is armed, the owned `server_`, and the
generator for fresh channel identifiers.

`base::IpcServer::createUniqueId()` is not under `src/`; following the
spec, it returns a fresh, never-reused identifier per attach attempt, which
is modelled by the counter `nextId`. -/
structure Manager where
  state : State
  session : Option Session
  proxy : Option Session
  timer : Bool
  server : Option ServerObj
  nextId : Nat
deriving DecidableEq

/-- Modelled from the spec: `DesktopSessionProcess::filePath()` (the
expected worker executable path) is outside `src/`; executable paths are
abstracted as numeric codes and the worker's fixed path is this
distinguished constant. -/
def workerFilePath : Nat := 0

/-- Shallow embedding of `DesktopSessionManager::dettachSession`
(`desktop_session_manager.cc`, lines 95-126): no-op when already `STOPPED`
or `DETACHED`; otherwise set `DETACHED` unless tearing down (`STOPPING`),
stop the timer, unbind the proxy, defer destruction of the owned session,
and — except during teardown — arm the re-attach timer and bind a fresh
fake session. -/
def dettachSession (m : Manager) : Manager × List Ev :=
  if m.state = State.STOPPED ∨ m.state = State.DETACHED then (m, [])
  else
    let s1 : State := if m.state = State.STOPPING then State.STOPPING else State.DETACHED
    let evs1 : List Ev :=
      if m.state = State.STOPPING then [] else [Ev.stateSet State.DETACHED]
    let delEvs : List Ev :=
      match m.session with
      | some s => [Ev.deleteSoon (Obj.sessionObj s)]
      | none => []
    let m1 : Manager := { m with state := s1, timer := false, proxy := none, session := none }
    if m.state = State.STOPPING then
      (m1, evs1 ++ [Ev.timerStop, Ev.proxyStopDettach] ++ delEvs)
    else
      ({ m1 with timer := true, session := some Session.fake, proxy := some Session.fake },
       evs1 ++ [Ev.timerStop, Ev.proxyStopDettach] ++ delEvs ++
         [Ev.timerStart, Ev.fakeCreated, Ev.proxyAttachStart Session.fake])

/-- Shallow embedding of `DesktopSessionManager::onErrorOccurred`
(`desktop_session_manager.cc`, lines 158-166): guarded no-op in `STOPPED`
or `STOPPING`; otherwise set `STOPPING`, run `dettachSession`, then set
`STOPPED`. -/
def onErrorOccurred (m : Manager) : Manager × List Ev :=
  if m.state = State.STOPPED ∨ m.state = State.STOPPING then (m, [])
  else
    ({ (dettachSession { m with state := State.STOPPING }).fst with state := State.STOPPED },
     [Ev.errorPath, Ev.stateSet State.STOPPING] ++
       (dettachSession { m with state := State.STOPPING }).snd ++
       [Ev.stateSet State.STOPPED])

/-- Shallow embedding of `DesktopSessionManager::attachSession`
(`desktop_session_manager.cc`, lines 51-93). `serverOk` is the result of
`IpcServer::start`, `spawnOk` the result of `DesktopSessionProcess::create`
(both are external calls whose code is outside `src/`). A fresh channel
identifier is taken, the old server object (if any) is destroyed inline by
the `server_ = std::make_unique` reassignment before the new server starts
listening, and either failure funnels into `onErrorOccurred`. -/
def attachSession (sid : Nat) (serverOk spawnOk : Bool) (m : Manager) : Manager × List Ev :=
  if m.state = State.ATTACHED then (m, [])
  else
    let evs0 : List Ev := if m.state = State.STOPPED then [Ev.timerStart] else []
    let t0 : Bool := if m.state = State.STOPPED then true else m.timer
    let chId : Nat := m.nextId
    let destroyEvs : List Ev :=
      match m.server with
      | some s => [Ev.destroyInline (Obj.serverObj s.id)]
      | none => []
    let m1 : Manager :=
      { m with state := State.STARTING, timer := t0, nextId := chId + 1,
               server := some { id := chId, started := serverOk } }
    if serverOk then
      if spawnOk then
        (m1, evs0 ++ [Ev.stateSet State.STARTING] ++ destroyEvs ++
          [Ev.serverStartOk chId, Ev.spawn sid chId])
      else
        ((onErrorOccurred m1).fst,
         evs0 ++ [Ev.stateSet State.STARTING] ++ destroyEvs ++
           [Ev.serverStartOk chId, Ev.spawnFail sid chId] ++ (onErrorOccurred m1).snd)
    else
      ((onErrorOccurred m1).fst,
       evs0 ++ [Ev.stateSet State.STARTING] ++ destroyEvs ++
         [Ev.serverStartFail chId] ++ (onErrorOccurred m1).snd)

/-- Shallow embedding of `DesktopSessionManager::onNewConnection`
(`desktop_session_manager.cc`, lines 133-156). `peer` is the connecting
peer's executable path code, `ch` the channel identifier of the connection.
Mismatched peers are rejected with no other effect; on acceptance the timer
is stopped, the server is stopped and scheduled for deferred destruction,
the old owned session (if any) is destroyed inline by the
`session_ = std::make_unique` reassignment, the state becomes `ATTACHED`
and the new channel-backed session is bound into the proxy. -/
def onNewConnection (peer ch : Nat) (m : Manager) : Manager × List Ev :=
  if peer ≠ workerFilePath then (m, [Ev.reject peer])
  else
    let stopEvs : List Ev :=
      match m.server with
      | some s => [Ev.serverStop s.id, Ev.deleteSoon (Obj.serverObj s.id)]
      | none => []
    let oldEvs : List Ev :=
      match m.session with
      | some s => [Ev.destroyInline (Obj.sessionObj s)]
      | none => []
    ({ m with timer := false, server := none,
              session := some (Session.ipc ch), state := State.ATTACHED,
              proxy := some (Session.ipc ch) },
     [Ev.timerStop] ++ stopEvs ++ oldEvs ++
       [Ev.stateSet State.ATTACHED, Ev.proxyAttachStart (Session.ipc ch)])

/-- Shallow embedding of the destructor
`DesktopSessionManager::~DesktopSessionManager`
(`desktop_session_manager.cc`, lines 43-49): `state_ = STOPPING` followed
by `dettachSession`. -/
def destructor (m : Manager) : Manager × List Ev :=
  ((dettachSession { m with state := State.STOPPING }).fst,
   Ev.stateSet State.STOPPING :: (dettachSession { m with state := State.STOPPING }).snd)

/-- Shallow embedding of `DesktopSessionManager::onDesktopSessionStopped`
(`desktop_session_manager.cc`, lines 173-176): its body is a call to
`dettachSession`. -/
def onDesktopSessionStopped (m : Manager) : Manager × List Ev :=
  dettachSession m

/-- Modelled from the spec: the single-shot `base::WaitableTimer` (outside
`src/`) invokes its callback at most once while armed; both timer callbacks
installed by the source call `onErrorOccurred`. -/
def fireTimer (m : Manager) : Manager × List Ev :=
  if m.timer then onErrorOccurred { m with timer := false } else (m, [])

/-- External stimuli driving the controller. -/
inductive Step where
  | attach (sid : Nat) (serverOk spawnOk : Bool)
  | dettach
  | sessionStopped
  | timerFire
  | connect (peer : Nat)
deriving DecidableEq

/-- Modelled from the spec: scheduling of one external stimulus. An inbound
connection is delivered to `onNewConnection` only while the server object
exists and is listening (spec section 4.2; `base::IpcServer` is outside
`src/`), carrying that server's channel identifier; the timer fires only
while armed; the remaining steps dispatch to the embedded methods. -/
def runStep (m : Manager) (st : Step) : Manager × List Ev :=
  match st with
  | Step.attach sid so po => attachSession sid so po m
  | Step.dettach => dettachSession m
  | Step.sessionStopped => onDesktopSessionStopped m
  | Step.timerFire => fireTimer m
  | Step.connect peer =>
      match m.server with
      | some s => if s.started then onNewConnection peer s.id m else (m, [])
      | none => (m, [])

/-- Run a sequence of external stimuli, accumulating emitted events. -/
def runTrace (m : Manager) : List Step → Manager × List Ev
  | [] => (m, [])
  | st :: rest =>
      ((runTrace (runStep m st).fst rest).fst,
       (runStep m st).snd ++ (runTrace (runStep m st).fst rest).snd)

/-- Configuration of a freshly constructed `DesktopSessionManager`: state
`STOPPED`, nothing owned, nothing bound, timer not armed. -/
def initManager : Manager :=
  { state := State.STOPPED, session := none, proxy := none, timer := false,
    server := none, nextId := 0 }

/-- Recogniser for the error-path event. -/
def isErrorPath : Ev → Bool
  | Ev.errorPath => true
  | _ => false

/-- Number of times the body of `onErrorOccurred` ran in an event list. -/
def errCount (evs : List Ev) : Nat := (evs.filter isErrorPath).length

/-- Channel identifiers consumed by `IpcServer::start` calls in an event
list. -/
def usedIds (evs : List Ev) : List Nat :=
  evs.filterMap fun e =>
    match e with
    | Ev.serverStartOk i => some i
    | Ev.serverStartFail i => some i
    | _ => none

/-- Flags of `DesktopEnvironment`
(`desktop/win/desktop_environment.cc`); the three booleans mirror the
member fields `wallpaper_`, `font_smoothing_` and `effects_`. -/
structure DesktopEnvironment where
  wallpaper : Bool
  font_smoothing : Bool
  effects : Bool
deriving DecidableEq

/-- System-parameter actions performed by `DesktopEnvironment`; `revertAll`
and the three disable helpers wrap opaque Win32 calls. -/
inductive DAct where
  | revertAll
  | disableWallpaper
  | disableFontSmoothing
  | disableEffects
deriving DecidableEq

/-- Shallow embedding of `DesktopEnvironment::applyNewSettings`
(`desktop_environment.cc`, lines 135-145): disable whatever the flags say
is not enabled. -/
def applyNewSettings (e : DesktopEnvironment) : List DAct :=
  (if e.wallpaper then [] else [DAct.disableWallpaper]) ++
  (if e.font_smoothing then [] else [DAct.disableFontSmoothing]) ++
  (if e.effects then [] else [DAct.disableEffects])

/-- Shallow embedding of `DesktopEnvironment::setWallpaper`
(`desktop_environment.cc`, lines 39-48): no-op when the stored flag already
equals the argument, otherwise store it, revert everything and re-apply. -/
def setWallpaper (e : DesktopEnvironment) (enable : Bool) : DesktopEnvironment × List DAct :=
  if e.wallpaper = enable then (e, [])
  else
    let e2 : DesktopEnvironment := { e with wallpaper := enable }
    (e2, DAct.revertAll :: applyNewSettings e2)

/-- Shallow embedding of `DesktopEnvironment::setFontSmoothing`
(`desktop_environment.cc`, lines 50-59). -/
def setFontSmoothing (e : DesktopEnvironment) (enable : Bool) : DesktopEnvironment × List DAct :=
  if e.font_smoothing = enable then (e, [])
  else
    let e2 : DesktopEnvironment := { e with font_smoothing := enable }
    (e2, DAct.revertAll :: applyNewSettings e2)

/-- Shallow embedding of `DesktopEnvironment::setEffects`
(`desktop_environment.cc`, lines 61-70). -/
def setEffects (e : DesktopEnvironment) (enable : Bool) : DesktopEnvironment × List DAct :=
  if e.effects = enable then (e, [])
  else
    let e2 : DesktopEnvironment := { e with effects := enable }
    (e2, DAct.revertAll :: applyNewSettings e2)
/-! ## Helper lemmas -/

/-- Counting error-path events distributes over list append. -/
theorem errCount_append (a b : List Ev) : errCount (a ++ b) = errCount a + errCount b := by
  simp [errCount, List.filter_append]

/-- Running a concatenated trace is running the two parts in sequence. -/
theorem runTrace_append (m : Manager) (l1 l2 : List Step) :
    (runTrace m (l1 ++ l2)).fst = (runTrace (runTrace m l1).fst l2).fst ∧
    (runTrace m (l1 ++ l2)).snd = (runTrace m l1).snd ++ (runTrace (runTrace m l1).fst l2).snd := by
  induction l1 generalizing m with
  | nil => simp [runTrace]
  | cons s rest ih =>
      simp [runTrace, (ih (runStep m s).fst).1, (ih (runStep m s).fst).2]

/-- A sequence of connection attempts from mismatched peers leaves the
controller configuration untouched and runs the error path zero times. -/
theorem connects_reject (peers : List Nat) (m : Manager)
    (h : ∀ p ∈ peers, p ≠ workerFilePath) :
    (runTrace m (peers.map Step.connect)).fst = m ∧
    errCount (runTrace m (peers.map Step.connect)).snd = 0 := by
  induction peers generalizing m with
  | nil => simp [runTrace, errCount]
  | cons p rest ih =>
      have hp : p ≠ workerFilePath := h p (by simp)
      have hr : ∀ q ∈ rest, q ≠ workerFilePath := fun q hq => h q (by simp [hq])
      have hstep : (runStep m (Step.connect p)).fst = m ∧
          errCount (runStep m (Step.connect p)).snd = 0 := by
        rcases hs : m.server with _ | s
        · simp [runStep, hs, errCount]
        · cases hb : s.started <;>
            simp [runStep, hs, hb, onNewConnection, hp, errCount, isErrorPath]
      have h1 := ih m hr
      simp only [List.map_cons, runTrace, hstep.1, errCount_append, hstep.2]
      exact ⟨h1.1, by omega⟩

/-- The used-identifier projection distributes over list append. -/
theorem usedIds_append (a b : List Ev) : usedIds (a ++ b) = usedIds a ++ usedIds b := by
  simp [usedIds]

/-- `dettachSession` never consumes a channel identifier. -/
theorem usedIds_dettach (m : Manager) : usedIds (dettachSession m).snd = [] := by
  rcases m with ⟨st, sess, prox, tim, srv, nid⟩
  cases st <;> cases sess <;> simp [dettachSession, usedIds]

/-- `onErrorOccurred` never consumes a channel identifier. -/
theorem usedIds_err (m : Manager) : usedIds (onErrorOccurred m).snd = [] := by
  by_cases h : m.state = State.STOPPED ∨ m.state = State.STOPPING
  · simp [onErrorOccurred, h, usedIds]
  · simp only [onErrorOccurred, if_neg h, usedIds_append, usedIds_dettach]
    simp [usedIds]

/-- Membership form of `usedIds_err`, as produced by `simp` when it
decomposes a `filterMap` goal. -/
theorem usedIds_err_mem (m : Manager) :
    ∀ a ∈ (onErrorOccurred m).snd,
      (match a with
        | Ev.serverStartOk i => some i
        | Ev.serverStartFail i => some i
        | _ => none) = (none : Option Nat) :=
  List.filterMap_eq_nil_iff.mp (usedIds_err m)

/-- `dettachSession` does not touch the identifier generator. -/
theorem dettach_nextId (m : Manager) : (dettachSession m).fst.nextId = m.nextId := by
  rcases m with ⟨st, sess, prox, tim, srv, nid⟩
  cases st <;> simp [dettachSession]

/-- `onErrorOccurred` does not touch the identifier generator. -/
theorem err_nextId (m : Manager) : (onErrorOccurred m).fst.nextId = m.nextId := by
  by_cases h : m.state = State.STOPPED ∨ m.state = State.STOPPING
  · simp [onErrorOccurred, h]
  · simp [onErrorOccurred, h, dettach_nextId]

/-- An `attachSession` call is either the `ATTACHED` no-op, or it consumes
exactly the current fresh identifier and bumps the generator. -/
theorem attach_ids (sid : Nat) (so po : Bool) (m : Manager) :
    (m.state = State.ATTACHED ∧ (attachSession sid so po m).snd = []) ∨
    (usedIds (attachSession sid so po m).snd = [m.nextId] ∧
      (attachSession sid so po m).fst.nextId = m.nextId + 1) := by
  by_cases h : m.state = State.ATTACHED
  · exact Or.inl ⟨h, by simp [attachSession, h]⟩
  · right
    constructor
    · by_cases h0 : m.state = State.STOPPED <;>
        rcases hs : m.server with _ | sv <;>
        cases so <;> cases po <;>
        (simp [attachSession, h, h0, hs, usedIds] <;> exact usedIds_err_mem _)
    · by_cases h0 : m.state = State.STOPPED <;>
        rcases hs : m.server with _ | sv <;>
        cases so <;> cases po <;>
        simp [attachSession, h, h0, hs, err_nextId]

/-- `onErrorOccurred` never leaves the controller in `DETACHED`. -/
theorem err_not_detached (m : Manager) :
    (onErrorOccurred m).fst.state ≠ State.DETACHED := by
  by_cases h : m.state = State.STOPPED ∨ m.state = State.STOPPING
  · rcases h with h | h <;> simp [onErrorOccurred, h]
  · simp [onErrorOccurred, h]

/-- `attachSession` never leaves the controller in `DETACHED`. -/
theorem attach_not_detached (sid : Nat) (so po : Bool) (m : Manager) :
    (attachSession sid so po m).fst.state ≠ State.DETACHED := by
  by_cases h : m.state = State.ATTACHED
  · simp [attachSession, h]
  · by_cases h0 : m.state = State.STOPPED <;>
      cases so <;> cases po <;>
      simp [attachSession, h, h0] <;>
      exact err_not_detached _

/-- `dettachSession` preserves the binding invariant: a `DETACHED`
controller has the fake session bound in the proxy. -/
theorem dettach_inv (m : Manager)
    (h : m.state = State.DETACHED → m.proxy = some Session.fake) :
    (dettachSession m).fst.state = State.DETACHED →
    (dettachSession m).fst.proxy = some Session.fake := by
  rcases m with ⟨st, sess, prox, tim, srv, nid⟩
  cases st <;> simp [dettachSession] <;> simp_all

/-- Every scheduler step preserves the binding invariant. -/
theorem step_inv (m : Manager) (st : Step)
    (h : m.state = State.DETACHED → m.proxy = some Session.fake) :
    (runStep m st).fst.state = State.DETACHED →
    (runStep m st).fst.proxy = some Session.fake := by
  cases st with
  | attach sid so po =>
      intro hd
      exact absurd hd (attach_not_detached sid so po m)
  | dettach => exact dettach_inv m h
  | sessionStopped => exact dettach_inv m h
  | timerFire =>
      cases ht : m.timer
      · simpa [runStep, fireTimer, ht] using h
      · intro hd
        simp only [runStep, fireTimer, ht, if_true] at hd
        exact absurd hd (err_not_detached _)
  | connect peer =>
      rcases hs : m.server with _ | s
      · simpa [runStep, hs] using h
      · cases hb : s.started
        · simpa [runStep, hs, hb] using h
        · by_cases hp : peer = workerFilePath
          · simp [runStep, hs, hb, onNewConnection, hp]
          · simpa [runStep, hs, hb, onNewConnection, hp] using h

/-- Every trace preserves the binding invariant. -/
theorem trace_inv (steps : List Step) (m : Manager)
    (h : m.state = State.DETACHED → m.proxy = some Session.fake) :
    (runTrace m steps).fst.state = State.DETACHED →
    (runTrace m steps).fst.proxy = some Session.fake := by
  induction steps generalizing m with
  | nil => simpa [runTrace] using h
  | cons st rest ih =>
      simpa [runTrace] using ih (runStep m st).fst (step_inv m st h)

/-! ## Claim theorems -/

/-- Claim C1, counterexample: after the single call `attachSession` from the
initial `STOPPED` state (server started, process spawned), the controller
has left `STOPPED`, yet the proxy has zero bound sessions — not exactly
one. -/
theorem c1_cex :
    (runTrace initManager [Step.attach 7 true true]).fst.state ≠ State.STOPPED ∧
    (runTrace initManager [Step.attach 7 true true]).fst.proxy = none := by decide

/-- Claim C1, amended: along every sequence of calls the proxy never holds
two sessions (it binds at most one by construction), it holds exactly one —
the fake session — whenever the controller is `DETACHED`, and every
`dettachSession` call completing from a state other than `STOPPED`,
`DETACHED` or `STOPPING` leaves exactly one (fake) session bound; but
immediately after `attachSession` the controller is `STARTING` and the
proxy may still be unbound. -/
theorem c1_proxy_invariant :
    (∀ steps : List Step,
      (runTrace initManager steps).fst.state = State.DETACHED →
      (runTrace initManager steps).fst.proxy = some Session.fake) ∧
    (∀ m : Manager,
      m.state ≠ State.STOPPED → m.state ≠ State.DETACHED → m.state ≠ State.STOPPING →
      (dettachSession m).fst.state = State.DETACHED ∧
      (dettachSession m).fst.proxy = some Session.fake ∧
      (dettachSession m).fst.session = some Session.fake) := by
  constructor
  · intro steps
    exact trace_inv steps initManager (by simp [initManager])
  · intro m h1 h2 h3
    rcases m with ⟨st, sess, prox, tim, srv, nid⟩
    simp only at h1 h2 h3
    cases st <;> simp_all [dettachSession]

/-- Claim C1, witness for the amended theorem at a concrete trace. -/
theorem c1_witness :
    (runTrace initManager [Step.attach 7 true true, Step.dettach]).fst.state = State.DETACHED ∧
    (runTrace initManager [Step.attach 7 true true, Step.dettach]).fst.proxy =
      some Session.fake :=
  ⟨by decide, c1_proxy_invariant.1 [Step.attach 7 true true, Step.dettach] (by decide)⟩

/-- Claim C2: a connection whose peer executable path differs from the
expected worker path is rejected: it is never bound as a session and the
whole controller configuration (state, timer, channel server, session,
proxy) is left unchanged. -/
theorem c2_reject_unchanged : ∀ (m : Manager) (peer ch : Nat),
    peer ≠ workerFilePath →
    onNewConnection peer ch m = (m, [Ev.reject peer]) := by
  intro m peer ch h
  simp [onNewConnection, h]

/-- Claim C2, witness at a concrete mismatched peer. -/
theorem c2_witness :
    (1 : Nat) ≠ workerFilePath ∧
    onNewConnection 1 5 initManager = (initManager, [Ev.reject 1]) :=
  ⟨by decide, c2_reject_unchanged initManager 1 5 (by decide)⟩

/-- Claim C3, counterexample: after an attach attempt times out (error path
runs, controller `STOPPED`), the channel server of that failed attempt is
still alive; a late connection from the genuine worker through it is
accepted and bound as a session — a session IS bound through a channel
server created by an attach attempt that has since failed. -/
theorem c3_cex :
    errCount (runTrace initManager [Step.attach 7 true true, Step.timerFire]).snd = 1 ∧
    (runTrace initManager [Step.attach 7 true true, Step.timerFire]).fst.state = State.STOPPED ∧
    (runTrace initManager
        [Step.attach 7 true true, Step.timerFire, Step.connect workerFilePath]).fst.state =
      State.ATTACHED ∧
    (runTrace initManager
        [Step.attach 7 true true, Step.timerFire, Step.connect workerFilePath]).fst.proxy =
      some (Session.ipc 0) := by decide

/-- Claim C3, amended: two consecutive `attachSession` calls never consume
the same channel identifier (identifiers are fresh per attempt); the stale
channel server of a failed attempt, however, is not destroyed and can still
deliver a connection that gets bound. -/
theorem c3_amended : ∀ (m : Manager) (sid1 sid2 : Nat) (so1 po1 so2 po2 : Bool) (i j : Nat),
    i ∈ usedIds (attachSession sid1 so1 po1 m).snd →
    j ∈ usedIds (attachSession sid2 so2 po2 (attachSession sid1 so1 po1 m).fst).snd →
    i ≠ j := by
  intro m sid1 sid2 so1 po1 so2 po2 i j hi hj
  rcases attach_ids sid1 so1 po1 m with ⟨_, he⟩ | ⟨hu, hn⟩
  · rw [he] at hi
    simp [usedIds] at hi
  · rw [hu] at hi
    simp at hi
    subst hi
    rcases attach_ids sid2 so2 po2 (attachSession sid1 so1 po1 m).fst with ⟨_, he2⟩ | ⟨hu2, _⟩
    · rw [he2] at hj
      simp [usedIds] at hj
    · rw [hu2, hn] at hj
      simp at hj
      omega

/-- Claim C3, witness for the amended theorem at two concrete consecutive
attach calls. -/
theorem c3_amended_witness :
    0 ∈ usedIds (attachSession 7 true true initManager).snd ∧
    1 ∈ usedIds
        (attachSession 8 true true (attachSession 7 true true initManager).fst).snd ∧
    (0 : Nat) ≠ 1 :=
  ⟨by decide, by decide,
   c3_amended initManager 7 8 true true true true 0 1 (by decide) (by decide)⟩

/-- Claim C4, counterexample: in a reachable configuration with a fake
session bound, an accepted valid connection destroys the previous session
inline (synchronously, by the owning-pointer reassignment) and does not
schedule it for deferred destruction. -/
theorem c4_cex :
    Ev.destroyInline (Obj.sessionObj Session.fake) ∈
      (runTrace initManager
        [Step.attach 7 true true, Step.dettach, Step.connect workerFilePath]).snd ∧
    Ev.deleteSoon (Obj.sessionObj Session.fake) ∉
      (runTrace initManager
        [Step.attach 7 true true, Step.dettach, Step.connect workerFilePath]).snd := by decide

/-- Claim C4, amended: when `onNewConnection` accepts a valid connection,
the previously bound session (if any) is destroyed inline within the
accepting call by the reassignment of the owning pointer; it is never
scheduled for deferred destruction (only `dettachSession` defers session
destruction). -/
theorem c4_amended : ∀ (m : Manager) (ch : Nat) (s : Session),
    m.session = some s →
    Ev.destroyInline (Obj.sessionObj s) ∈ (onNewConnection workerFilePath ch m).snd ∧
    Ev.deleteSoon (Obj.sessionObj s) ∉ (onNewConnection workerFilePath ch m).snd := by
  intro m ch s h
  rcases hs : m.server with _ | sv <;> simp [onNewConnection, h, hs]

/-- Claim C4, witness for the amended theorem at a concrete configuration. -/
theorem c4_amended_witness :
    Ev.destroyInline (Obj.sessionObj Session.fake) ∈
      (onNewConnection workerFilePath 3
        { state := State.DETACHED, session := some Session.fake, proxy := some Session.fake,
          timer := true, server := some { id := 2, started := true }, nextId := 3 }).snd ∧
    Ev.deleteSoon (Obj.sessionObj Session.fake) ∉
      (onNewConnection workerFilePath 3
        { state := State.DETACHED, session := some Session.fake, proxy := some Session.fake,
          timer := true, server := some { id := 2, started := true }, nextId := 3 }).snd :=
  c4_amended _ 3 Session.fake rfl

/-- Claim C5: if `attachSession` succeeds from the initial state and no
valid connection arrives before the attach timer fires (any number of
mismatched peers may try), the controller reaches `STOPPED` and the error
path runs exactly once — neither zero times nor more than once. -/
theorem c5_attach_timeout : ∀ (sid : Nat) (peers : List Nat),
    (∀ p ∈ peers, p ≠ workerFilePath) →
    (runTrace initManager
        (Step.attach sid true true :: (peers.map Step.connect ++ [Step.timerFire]))).fst.state =
      State.STOPPED ∧
    errCount (runTrace initManager
        (Step.attach sid true true :: (peers.map Step.connect ++ [Step.timerFire]))).snd = 1 := by
  intro sid peers h
  have hm1 : (runStep initManager (Step.attach sid true true)).fst =
      { state := State.STARTING, session := none, proxy := none, timer := true,
        server := some { id := 0, started := true }, nextId := 1 } := by
    simp [runStep, attachSession, initManager]
  have he1 : errCount (runStep initManager (Step.attach sid true true)).snd = 0 := by
    simp [runStep, attachSession, initManager, errCount, isErrorPath]
  have hcr := connects_reject peers
      { state := State.STARTING, session := none, proxy := none, timer := true,
        server := some { id := 0, started := true }, nextId := 1 } h
  have happ := runTrace_append
      { state := State.STARTING, session := none, proxy := none, timer := true,
        server := some { id := 0, started := true }, nextId := 1 }
      (peers.map Step.connect) [Step.timerFire]
  have hfin : (runStep
      { state := State.STARTING, session := none, proxy := none, timer := true,
        server := some { id := 0, started := true }, nextId := 1 }
      Step.timerFire).fst.state = State.STOPPED ∧
      errCount (runStep
      { state := State.STARTING, session := none, proxy := none, timer := true,
        server := some { id := 0, started := true }, nextId := 1 }
      Step.timerFire).snd = 1 := by decide
  constructor
  · simp only [runTrace, hm1, happ.1, hcr.1, hfin.1]
  · simp only [runTrace, hm1, errCount_append, he1, happ.2, hcr.1, hcr.2, hfin.2]
    simp [errCount]

/-- Claim C5, witness at a concrete session id and one mismatched peer. -/
theorem c5_witness :
    (∀ p ∈ [(1 : Nat)], p ≠ workerFilePath) ∧
    ((runTrace initManager
        (Step.attach 7 true true :: ([(1 : Nat)].map Step.connect ++ [Step.timerFire]))).fst.state =
      State.STOPPED ∧
    errCount (runTrace initManager
        (Step.attach 7 true true :: ([(1 : Nat)].map Step.connect ++ [Step.timerFire]))).snd = 1) :=
  ⟨by decide, c5_attach_timeout 7 [1] (by decide)⟩

/-- Claim C6: for every controller configuration (in particular every
reachable one), calling `dettachSession` twice in a row leaves the
controller, timer and proxy in the same configuration as calling it once,
and the same idempotence holds for `onErrorOccurred`. -/
theorem c6_idempotent : ∀ m : Manager,
    (dettachSession (dettachSession m).fst).fst = (dettachSession m).fst ∧
    (onErrorOccurred (onErrorOccurred m).fst).fst = (onErrorOccurred m).fst := by
  intro m
  rcases m with ⟨st, sess, prox, tim, srv, nid⟩
  cases st <;> cases sess <;> simp [dettachSession, onErrorOccurred]

/-- Claim C7, counterexample: invoking the destructor in a reachable
`ATTACHED` configuration leaves the final state `STOPPING`, and the state
sequence never passes through `STOPPED`. -/
theorem c7_cex :
    (runTrace initManager [Step.attach 7 true true, Step.connect workerFilePath]).fst.state =
      State.ATTACHED ∧
    (destructor
        (runTrace initManager [Step.attach 7 true true, Step.connect workerFilePath]).fst).fst.state =
      State.STOPPING ∧
    Ev.stateSet State.STOPPED ∉
      (destructor
        (runTrace initManager [Step.attach 7 true true, Step.connect workerFilePath]).fst).snd := by
  decide

/-- Claim C7, amended: when the destructor is invoked while `ATTACHED`, the
state is set to `STOPPING` and teardown runs through `dettachSession`; no
fake session is created, the session and proxy end unbound, and `STOPPED`
is never assigned — the object is destroyed while still `STOPPING`. -/
theorem c7_amended : ∀ m : Manager, m.state = State.ATTACHED →
    (destructor m).fst.state = State.STOPPING ∧
    (destructor m).fst.session = none ∧
    (destructor m).fst.proxy = none ∧
    Ev.fakeCreated ∉ (destructor m).snd ∧
    Ev.stateSet State.STOPPED ∉ (destructor m).snd := by
  intro m _
  rcases hs : m.session with _ | s <;> simp [destructor, dettachSession, hs]

/-- Claim C7, witness for the amended theorem at a concrete configuration. -/
theorem c7_amended_witness :
    (destructor
        { state := State.ATTACHED, session := some (Session.ipc 4),
          proxy := some (Session.ipc 4), timer := false, server := none,
          nextId := 5 }).fst.state = State.STOPPING ∧
    (destructor
        { state := State.ATTACHED, session := some (Session.ipc 4),
          proxy := some (Session.ipc 4), timer := false, server := none,
          nextId := 5 }).fst.session = none ∧
    (destructor
        { state := State.ATTACHED, session := some (Session.ipc 4),
          proxy := some (Session.ipc 4), timer := false, server := none,
          nextId := 5 }).fst.proxy = none ∧
    Ev.fakeCreated ∉
      (destructor
        { state := State.ATTACHED, session := some (Session.ipc 4),
          proxy := some (Session.ipc 4), timer := false, server := none,
          nextId := 5 }).snd ∧
    Ev.stateSet State.STOPPED ∉
      (destructor
        { state := State.ATTACHED, session := some (Session.ipc 4),
          proxy := some (Session.ipc 4), timer := false, server := none,
          nextId := 5 }).snd :=
  c7_amended _ rfl

/-- Claim C8: `onDesktopSessionStopped` produces exactly the same resulting
configuration and the same emitted events as calling `dettachSession`
directly — its source body is precisely that call. -/
theorem c8_stopped_equiv : ∀ m : Manager,
    onDesktopSessionStopped m = dettachSession m := fun _ => rfl

/-- Claim C9, counterexample: from a reachable `DETACHED` configuration
with the re-attach timer armed, an `attachSession` call whose process spawn
fails leaves the timer disarmed — the previously armed deadline does not
remain in effect. -/
theorem c9_cex :
    ((runTrace initManager [Step.attach 7 true true, Step.dettach]).fst.state = State.DETACHED ∧
      (runTrace initManager [Step.attach 7 true true, Step.dettach]).fst.timer = true) ∧
    (attachSession 8 true false
        (runTrace initManager [Step.attach 7 true true, Step.dettach]).fst).fst.timer = false := by
  decide

/-- Claim C9, amended: if `attachSession` is called while `STARTING` or
`DETACHED`, no new attach timer is armed in any outcome; when the server
starts and the spawn succeeds the previously armed deadline remains
unchanged and the events are exactly: set `STARTING`, destroy the previous
attempt's server inline, start the new server listening (on the fresh
identifier), spawn — the old server dies before the new one listens. On a
failure, the error path additionally disarms the timer. -/
theorem c9_amended : ∀ (m : Manager) (sid : Nat) (so po : Bool) (s : ServerObj),
    (m.state = State.STARTING ∨ m.state = State.DETACHED) →
    m.server = some s →
    Ev.timerStart ∉ (attachSession sid so po m).snd ∧
    (so = true → po = true →
      (attachSession sid so po m).fst.timer = m.timer ∧
      (attachSession sid so po m).snd =
        [Ev.stateSet State.STARTING, Ev.destroyInline (Obj.serverObj s.id),
         Ev.serverStartOk m.nextId, Ev.spawn sid m.nextId]) := by
  intro m sid so po s hst hsrv
  rcases m with ⟨st, sess, prox, tim, srv, nid⟩
  simp only at hsrv
  subst hsrv
  rcases hst with h | h <;> simp only at h <;> subst h <;>
    cases so <;> cases po <;> cases sess <;>
    simp [attachSession, onErrorOccurred, dettachSession]

/-- Claim C9, witness for the amended theorem at a concrete reachable
`DETACHED` configuration. -/
theorem c9_amended_witness :
    ((runTrace initManager [Step.attach 7 true true, Step.dettach]).fst.state = State.DETACHED ∧
      (runTrace initManager [Step.attach 7 true true, Step.dettach]).fst.server =
        some { id := 0, started := true }) ∧
    Ev.timerStart ∉
      (attachSession 9 true true
        (runTrace initManager [Step.attach 7 true true, Step.dettach]).fst).snd :=
  ⟨⟨by decide, by decide⟩,
   (c9_amended (runTrace initManager [Step.attach 7 true true, Step.dettach]).fst 9 true true
      { id := 0, started := true } (Or.inr (by decide)) (by decide)).1⟩

/-- Claim C10: each `DesktopEnvironment` setter called with a value equal
to the currently stored flag performs no action at all (no revert, no
re-apply, no system-parameter change), and calling a setter twice in a row
with the same argument is the same as calling it once. -/
theorem c10_setters_idempotent : ∀ (e : DesktopEnvironment) (b : Bool),
    ((e.wallpaper = b → setWallpaper e b = (e, [])) ∧
      setWallpaper (setWallpaper e b).fst b = ((setWallpaper e b).fst, [])) ∧
    ((e.font_smoothing = b → setFontSmoothing e b = (e, [])) ∧
      setFontSmoothing (setFontSmoothing e b).fst b = ((setFontSmoothing e b).fst, [])) ∧
    ((e.effects = b → setEffects e b = (e, [])) ∧
      setEffects (setEffects e b).fst b = ((setEffects e b).fst, [])) := by
  intro e b
  rcases e with ⟨w, f, x⟩
  cases w <;> cases f <;> cases x <;> cases b <;> decide

/-- Claim C10, witness at a concrete environment. -/
theorem c10_witness :
    (({ wallpaper := false, font_smoothing := false, effects := false } :
        DesktopEnvironment).wallpaper = false) ∧
    setWallpaper { wallpaper := false, font_smoothing := false, effects := false } false =
      ({ wallpaper := false, font_smoothing := false, effects := false }, []) :=
  ⟨by decide,
   (c10_setters_idempotent { wallpaper := false, font_smoothing := false, effects := false }
      false).1.1 (by decide)⟩

end Aspia
